import Mathlib

/-!
Verification of the credential-resolution chain in `aws-creds`
(`src/aws-creds/src/credentials.rs`).

The Rust code reads ambient state (process environment, local files, HTTP
endpoints) and parses bodies with external collaborators (`serde_xml`,
JSON, the `ini` crate).  We embed that ambient state as an explicit
`World` record of pure lookup functions and model the external parsers as
fields of the world, as the specification directs (deserialization
mechanics are out of scope).  Each Rust constructor becomes a pure
function `World → ... → Except CredError Credentials`, translated
clause-by-clause from the source.
-/

/-- Timestamps (`chrono::DateTime<Utc>`) are modelled as plain naturals;
none of the code inspects them, it only carries them around. -/
abbrev Timestamp : Type := Nat

/-- The credential record, field for field the Rust `struct Credentials`. -/
structure Credentials where
  access_key : Option String
  secret_key : Option String
  security_token : Option String
  session_token : Option String
  expiration : Option Timestamp
deriving DecidableEq

/-- The credentials sub-record of the parsed STS response
(`StsResponseCredentials` in the source). -/
structure StsResponseCredentials where
  session_token : String
  secret_access_key : String
  expiration : Timestamp
  access_key_id : String
deriving DecidableEq

/-- The parsed JSON body used by `from_instance_metadata`
(the local `struct Response` in the source). -/
structure MetadataResponse where
  access_key_id : String
  secret_access_key : String
  token : String
  expiration : Timestamp
deriving DecidableEq

/-- A parsed INI file: ordered sections, each an ordered key/value list.
`Ini::load_from_file` and section/key lookup come from the external `ini`
crate; lookup takes the first match, as that crate does. -/
def Ini : Type := List (String × List (String × String))

/-- First section with the given name, if any (`conf.section(Some(name))`). -/
def Ini.findSection (conf : Ini) (name : String) : Option (List (String × String)) :=
  (conf.find? (fun p => p.1 = name)).map Prod.snd

/-- First value bound to the given key, if any (`data.get(key)`). -/
def propsGet (data : List (String × String)) (key : String) : Option String :=
  (data.find? (fun p => p.1 = key)).map Prod.snd

/-- Error values produced by the source, one constructor per distinct
failure site (the Rust code carries them all as `anyhow` errors). -/
inductive CredError where
  /-- Raised when `env::var(name)` failed (`std::env::VarError`). -/
  | envVarMissing (name : String)
  /-- Raised when `std::fs::read_to_string(path)` failed. -/
  | fileReadError (path : String)
  /-- Raised when `attohttpc::get(url).send()` (or reading its body) failed. -/
  | httpError (url : String)
  /-- a response body did not deserialize into the expected record. -/
  | malformedResponse
  /-- The `anyhow!("Invalid home dir")` error. -/
  | invalidHomeDir
  /-- Raised when `Ini::load_from_file(path)` failed (missing file or bad format). -/
  | iniLoadError (path : String)
  /-- The `anyhow!("Config missing")` error: requested profile section absent. -/
  | configMissing
  /-- The `anyhow!("Missing aws_access_key_id section")` error. -/
  | missingAccessKeyId
  /-- The `anyhow!("Missing aws_secret_access_key section")` error. -/
  | missingSecretAccessKey
  /-- The `bail!("Not an AWS instance")` error. -/
  | notAwsInstance
  /-- the error built by `from_env_with_default` when the resolved
  variable is absent; it records the override and the default name,
  exactly the data interpolated into the `anyhow!` message. -/
  | envWithDefaultMissing (var : Option String) (defaultVar : String)
deriving DecidableEq

/-- The ambient state a resolution call can observe: process environment,
readable files, HTTP GET responses (`none` = transport failure), the two
external parsers, the home directory, and INI loading (file read + parse
fused, as `Ini::load_from_file` fuses them). -/
structure World where
  env : String → Option String
  readFile : String → Option String
  httpGet : String → Option String
  parseStsXml : String → Option StsResponseCredentials
  parseJson : String → Option MetadataResponse
  homeDir : Option String
  loadIni : String → Option Ini

/-- Rust `fn from_env_with_default(var, default)`: resolve the variable name
(`var.unwrap_or(default)`) and look it up; the source looks the same
resolved name up a second time before giving up (`.or_else(|_e| env::var(val))`),
which we translate literally. -/
def from_env_with_default (w : World) (var : Option String) (defaultVar : String) :
    Except CredError String :=
  let val := var.getD defaultVar
  match w.env val with
  | some v => .ok v
  | none =>
    match w.env val with
    | some v => .ok v
    | none => .error (.envWithDefaultMissing var defaultVar)

/-- Rust `Credentials::from_sts`: build the STS query URL, GET it, parse the
XML body, and map the credentials sub-record into a `Credentials`.
URL construction (`Url::parse_with_params`, an external collaborator)
is modelled as deterministic concatenation in the source's parameter
order. -/
def stsUrl (role_arn session_name web_identity_token : String) : String :=
  "https://sts.amazonaws.com/?Action=AssumeRoleWithWebIdentity&RoleSessionName="
    ++ session_name ++ "&RoleArn=" ++ role_arn
    ++ "&WebIdentityToken=" ++ web_identity_token ++ "&Version=2011-06-15"

def Credentials.from_sts (w : World) (role_arn session_name web_identity_token : String) :
    Except CredError Credentials :=
  let url := stsUrl role_arn session_name web_identity_token
  match w.httpGet url with
  | none => .error (.httpError url)
  | some body =>
    match w.parseStsXml body with
    | none => .error .malformedResponse
    | some creds =>
      .ok { access_key := some creds.access_key_id
            secret_key := some creds.secret_access_key
            security_token := none
            session_token := some creds.session_token
            expiration := some creds.expiration }

/-- Rust `Credentials::from_sts_env`: read `AWS_ROLE_ARN` and
`AWS_WEB_IDENTITY_TOKEN_FILE`, read the token file, delegate to
`from_sts`. -/
def Credentials.from_sts_env (w : World) (session_name : String) :
    Except CredError Credentials :=
  match w.env "AWS_ROLE_ARN" with
  | none => .error (.envVarMissing "AWS_ROLE_ARN")
  | some role_arn =>
    match w.env "AWS_WEB_IDENTITY_TOKEN_FILE" with
    | none => .error (.envVarMissing "AWS_WEB_IDENTITY_TOKEN_FILE")
    | some web_identity_token_file =>
      match w.readFile web_identity_token_file with
      | none => .error (.fileReadError web_identity_token_file)
      | some web_identity_token =>
        Credentials.from_sts w role_arn session_name web_identity_token

/-- Rust `Credentials::anonymous`: the all-`None` record.  The Rust body reads
nothing; we still pass the world to state that explicitly. -/
def Credentials.anonymous (_w : World) : Except CredError Credentials :=
  .ok { access_key := none, secret_key := none, security_token := none
        session_token := none, expiration := none }

/-- Rust `Credentials::from_env_specific`: the two key variables are required
(`?`), the two token variables are tolerated (`.ok()`). -/
def Credentials.from_env_specific (w : World)
    (access_key_var secret_key_var security_token_var session_token_var : Option String) :
    Except CredError Credentials :=
  match from_env_with_default w access_key_var "AWS_ACCESS_KEY_ID" with
  | .error e => .error e
  | .ok access_key =>
    match from_env_with_default w secret_key_var "AWS_SECRET_ACCESS_KEY" with
    | .error e => .error e
    | .ok secret_key =>
      let security_token := (from_env_with_default w security_token_var "AWS_SECURITY_TOKEN").toOption
      let session_token := (from_env_with_default w session_token_var "AWS_SESSION_TOKEN").toOption
      .ok { access_key := some access_key
            secret_key := some secret_key
            security_token := security_token
            session_token := session_token
            expiration := none }

/-- Rust `Credentials::from_env`. -/
def Credentials.from_env (w : World) : Except CredError Credentials :=
  Credentials.from_env_specific w none none none none

/-- The first platform probe: `/sys/hypervisor/uuid` readable and its
first three bytes `"ec2"` (`uuid.len() >= 3 && &uuid[..3] == "ec2"`,
with `map_or(false, ..)` on read failure). -/
def onEc2ByHypervisorUuid (w : World) : Bool :=
  match w.readFile "/sys/hypervisor/uuid" with
  | some uuid => decide (uuid.length ≥ 3) && (uuid.take 3 == "ec2")
  | none => false

/-- The second platform probe: `/sys/class/dmi/id/board_vendor` readable
and its first ten bytes `"Amazon EC2"`. -/
def onEc2ByBoardVendor (w : World) : Bool :=
  match w.readFile "/sys/class/dmi/id/board_vendor" with
  | some vendor => decide (vendor.length ≥ 10) && (vendor.take 10 == "Amazon EC2")
  | none => false

/-- Rust `Credentials::from_instance_metadata`: ECS branch when
`AWS_CONTAINER_CREDENTIALS_RELATIVE_URI` is set, otherwise probe the two
platform files and, on a match, two sequential metadata GETs; either
branch parses a JSON body into `MetadataResponse` and maps it with
`security_token` populated and `session_token` left `None`. -/
def fetchMetadataResponse (w : World) : Except CredError MetadataResponse :=
  match w.env "AWS_CONTAINER_CREDENTIALS_RELATIVE_URI" with
  | some credentials_path =>
    match w.httpGet ("http://169.254.170.2" ++ credentials_path) with
    | none => .error (.httpError ("http://169.254.170.2" ++ credentials_path))
    | some body =>
      match w.parseJson body with
      | none => .error .malformedResponse
      | some resp => .ok resp
  | none =>
    if !(onEc2ByHypervisorUuid w || onEc2ByBoardVendor w) then
      .error .notAwsInstance
    else
      match w.httpGet "http://169.254.169.254/latest/meta-data/iam/security-credentials" with
      | none => .error (.httpError "http://169.254.169.254/latest/meta-data/iam/security-credentials")
      | some role =>
        match w.httpGet
          ("http://169.254.169.254/latest/meta-data/iam/security-credentials/" ++ role) with
        | none =>
          .error (.httpError
            ("http://169.254.169.254/latest/meta-data/iam/security-credentials/" ++ role))
        | some body =>
          match w.parseJson body with
          | none => .error .malformedResponse
          | some resp => .ok resp

def Credentials.from_instance_metadata (w : World) : Except CredError Credentials :=
  match fetchMetadataResponse w with
  | .error e => .error e
  | .ok resp =>
    .ok { access_key := some resp.access_key_id
          secret_key := some resp.secret_access_key
          security_token := some resp.token
          expiration := some resp.expiration
          session_token := none }

/-- Rust `Credentials::from_profile`: home directory, `~/.aws/credentials`,
requested section (default `"default"`), two required keys, two tolerated
keys. -/
def Credentials.from_profile (w : World) (sectionName : Option String) :
    Except CredError Credentials :=
  match w.homeDir with
  | none => .error .invalidHomeDir
  | some home_dir =>
    let profile := home_dir ++ "/.aws/credentials"
    match w.loadIni profile with
    | none => .error (.iniLoadError profile)
    | some conf =>
      let sec := sectionName.getD "default"
      match conf.findSection sec with
      | none => .error .configMissing
      | some data =>
        match propsGet data "aws_access_key_id" with
        | none => .error .missingAccessKeyId
        | some access_key =>
          match propsGet data "aws_secret_access_key" with
          | none => .error .missingSecretAccessKey
          | some secret_key =>
            .ok { access_key := some access_key
                  secret_key := some secret_key
                  security_token := propsGet data "aws_security_token"
                  session_token := propsGet data "aws_session_token"
                  expiration := none }

/-- Rust `Credentials::new`: direct input short-circuits when an access key is
supplied; otherwise the `or_else` chain
`from_sts_env("aws-creds") → from_env → from_profile(profile) → from_instance_metadata`. -/
def Credentials.new (w : World)
    (access_key secret_key security_token session_token profile : Option String) :
    Except CredError Credentials :=
  match access_key with
  | some ak =>
    .ok { access_key := some ak
          secret_key := secret_key
          security_token := security_token
          session_token := session_token
          expiration := none }
  | none =>
    match Credentials.from_sts_env w "aws-creds" with
    | .ok c => .ok c
    | .error _ =>
      match Credentials.from_env w with
      | .ok c => .ok c
      | .error _ =>
        match Credentials.from_profile w profile with
        | .ok c => .ok c
        | .error _ => Credentials.from_instance_metadata w

/-- Rust `Credentials::default()`. -/
def Credentials.defaultChain (w : World) : Except CredError Credentials :=
  Credentials.new w none none none none none

/-- The record invariant of spec §3, stated from the spec's words: an
absent access key forces every field absent; otherwise the secret key is
present too and the record is fully direct (no expiration) or fully
temporary (some token present together with the expiration). -/
def recordInvariant (c : Credentials) : Prop :=
  (c.access_key = none →
    c.secret_key = none ∧ c.security_token = none ∧ c.session_token = none ∧
    c.expiration = none) ∧
  (c.access_key ≠ none →
    c.secret_key ≠ none ∧
    (c.expiration = none ∨
      ((c.security_token ≠ none ∨ c.session_token ≠ none) ∧ c.expiration ≠ none)))

instance (c : Credentials) : Decidable (recordInvariant c) := by
  unfold recordInvariant; infer_instance

/-- A world in which nothing is present at all: every source fails. -/
def emptyWorld : World :=
  { env := fun _ => none
    readFile := fun _ => none
    httpGet := fun _ => none
    parseStsXml := fun _ => none
    parseJson := fun _ => none
    homeDir := none
    loadIni := fun _ => none }

/-- C5: a call to `Credentials::new` with an access key supplied succeeds
unconditionally, copies the four supplied fields verbatim with
`expiration = None`, and consults no ambient state: the result is the
same literal record for every world, in particular `secret_key = None`
when only the access key is given. -/
theorem new_direct_input (w : World) (ak : String)
    (sk st sst p : Option String) :
    Credentials.new w (some ak) sk st sst p =
      .ok { access_key := some ak, secret_key := sk, security_token := st
            session_token := sst, expiration := none } := rfl

/-- C8: `anonymous` succeeds with the all-`None` record in every world,
touching no part of the resolution chain. -/
theorem anonymous_all_none (w : World) :
    Credentials.anonymous w =
      .ok { access_key := none, secret_key := none, security_token := none
            session_token := none, expiration := none } := rfl

lemma from_env_with_default_eq (w : World) (var : Option String) (d : String) :
    from_env_with_default w var d =
      match w.env (var.getD d) with
      | some v => .ok v
      | none => .error (.envWithDefaultMissing var d) := by
  unfold from_env_with_default
  cases h : w.env (var.getD d) <;> simp [h]

/-- C10: `from_env_with_default` consults exactly one variable name: with
an override supplied, the result is a function of the environment's value
at the override name alone (the default name is never looked up, even
when set, and on absence the required-field lookup fails); without an
override, the default canonical name alone is consulted.  Consequently
`from_env_specific` only depends on the environment at the four resolved
names. -/
theorem from_env_override_only (w w' : World) (name d : String)
    (av sv tv1 tv2 : Option String)
    (ha : w.env (av.getD "AWS_ACCESS_KEY_ID") = w'.env (av.getD "AWS_ACCESS_KEY_ID"))
    (hs : w.env (sv.getD "AWS_SECRET_ACCESS_KEY") = w'.env (sv.getD "AWS_SECRET_ACCESS_KEY"))
    (h1 : w.env (tv1.getD "AWS_SECURITY_TOKEN") = w'.env (tv1.getD "AWS_SECURITY_TOKEN"))
    (h2 : w.env (tv2.getD "AWS_SESSION_TOKEN") = w'.env (tv2.getD "AWS_SESSION_TOKEN")) :
    (from_env_with_default w (some name) d =
      match w.env name with
      | some v => .ok v
      | none => .error (.envWithDefaultMissing (some name) d))
    ∧ (from_env_with_default w none d =
      match w.env d with
      | some v => .ok v
      | none => .error (.envWithDefaultMissing none d))
    ∧ Credentials.from_env_specific w av sv tv1 tv2 =
        Credentials.from_env_specific w' av sv tv1 tv2 := by
  refine ⟨from_env_with_default_eq w (some name) d, from_env_with_default_eq w none d, ?_⟩
  unfold Credentials.from_env_specific
  rw [from_env_with_default_eq, from_env_with_default_eq w' av,
    from_env_with_default_eq, from_env_with_default_eq w' sv,
    from_env_with_default_eq, from_env_with_default_eq w' tv1,
    from_env_with_default_eq, from_env_with_default_eq w' tv2,
    ha, hs, h1, h2]

/-- An environment holding only the canonical access-key name, used to
witness that the override - not the default - decides the outcome. -/
def wDefaultOnly : World :=
  { emptyWorld with
      env := fun n => if n = "AWS_ACCESS_KEY_ID" then some "FROM-DEFAULT" else none }

/-- C10 witness: with `AWS_ACCESS_KEY_ID` set but the override name
`MY_KEY` absent, the lookup through the override fails even though the
default name has a value. -/
theorem from_env_override_only_witness :
    from_env_with_default wDefaultOnly (some "MY_KEY") "AWS_ACCESS_KEY_ID" =
      .error (.envWithDefaultMissing (some "MY_KEY") "AWS_ACCESS_KEY_ID") := by
  have h := (from_env_override_only wDefaultOnly wDefaultOnly "MY_KEY"
    "AWS_ACCESS_KEY_ID" none none none none rfl rfl rfl rfl).1
  simpa using h

/-- C6: `from_env_specific` fails - always with the missing-variable
error - exactly when the resolved access-key name or the resolved
secret-key name is absent from the environment; when both are present it
succeeds with those two values, each token field independently set to
the environment's value at its resolved name (absence tolerated as
`None`), and no expiration. -/
theorem from_env_specific_characterization (w : World)
    (av sv tv1 tv2 : Option String) :
    ((∃ v d, Credentials.from_env_specific w av sv tv1 tv2 =
        .error (.envWithDefaultMissing v d)) ↔
      (w.env (av.getD "AWS_ACCESS_KEY_ID") = none ∨
       w.env (sv.getD "AWS_SECRET_ACCESS_KEY") = none))
    ∧ (∀ a s, w.env (av.getD "AWS_ACCESS_KEY_ID") = some a →
        w.env (sv.getD "AWS_SECRET_ACCESS_KEY") = some s →
        Credentials.from_env_specific w av sv tv1 tv2 =
          .ok { access_key := some a, secret_key := some s
                security_token := w.env (tv1.getD "AWS_SECURITY_TOKEN")
                session_token := w.env (tv2.getD "AWS_SESSION_TOKEN")
                expiration := none }) := by
  constructor
  · unfold Credentials.from_env_specific
    rw [from_env_with_default_eq, from_env_with_default_eq,
      from_env_with_default_eq, from_env_with_default_eq]
    cases hA : w.env (av.getD "AWS_ACCESS_KEY_ID") <;>
      cases hS : w.env (sv.getD "AWS_SECRET_ACCESS_KEY") <;>
        simp [hA, hS]
  · intro a s hA hS
    unfold Credentials.from_env_specific
    rw [from_env_with_default_eq, from_env_with_default_eq,
      from_env_with_default_eq, from_env_with_default_eq, hA, hS]
    cases h1 : w.env (tv1.getD "AWS_SECURITY_TOKEN") <;>
      cases h2 : w.env (tv2.getD "AWS_SESSION_TOKEN") <;>
        simp [h1, h2, Except.toOption]

/-- An environment with the two canonical key variables set and nothing
else. -/
def wEnvKeys : World :=
  { emptyWorld with
      env := fun n =>
        if n = "AWS_ACCESS_KEY_ID" then some "AKID"
        else if n = "AWS_SECRET_ACCESS_KEY" then some "SECRET" else none }

/-- C6 witness: with the two required variables set and no token
variables, `from_env_specific` succeeds with both tokens `None`; and in
the empty environment it fails with the missing-variable error. -/
theorem from_env_specific_characterization_witness :
    Credentials.from_env_specific wEnvKeys none none none none =
      .ok { access_key := some "AKID", secret_key := some "SECRET"
            security_token := none, session_token := none, expiration := none }
    ∧ (∃ v d, Credentials.from_env_specific emptyWorld none none none none =
        .error (.envWithDefaultMissing v d)) := by
  constructor
  · have h := (from_env_specific_characterization wEnvKeys none none none none).2
      "AKID" "SECRET" (by decide) (by decide)
    simpa using h
  · exact ((from_env_specific_characterization emptyWorld none none none none).1).2
      (Or.inl rfl)

/-- C1: with no access key supplied, `Credentials::new` resolves through
the chain in strict order - STS-environment, process environment, the
profile file with the requested section, instance metadata - succeeding
with exactly the first source's record and discarding every prior
failure. -/
theorem new_chain_order (w : World) (sk st sst profile : Option String)
    (c : Credentials) :
    Credentials.new w none sk st sst profile = .ok c ↔
      (Credentials.from_sts_env w "aws-creds" = .ok c
      ∨ ((∃ e1, Credentials.from_sts_env w "aws-creds" = .error e1)
          ∧ Credentials.from_env w = .ok c)
      ∨ ((∃ e1, Credentials.from_sts_env w "aws-creds" = .error e1)
          ∧ (∃ e2, Credentials.from_env w = .error e2)
          ∧ Credentials.from_profile w profile = .ok c)
      ∨ ((∃ e1, Credentials.from_sts_env w "aws-creds" = .error e1)
          ∧ (∃ e2, Credentials.from_env w = .error e2)
          ∧ (∃ e3, Credentials.from_profile w profile = .error e3)
          ∧ Credentials.from_instance_metadata w = .ok c)) := by
  unfold Credentials.new
  rcases h1 : Credentials.from_sts_env w "aws-creds" with e1 | c1 <;>
    rcases h2 : Credentials.from_env w with e2 | c2 <;>
      rcases h3 : Credentials.from_profile w profile with e3 | c3 <;>
        simp [h1, h2, h3, eq_comm]

/-- C2 counterexample: in the world where every ambient source is empty,
all four chained sources fail and `Credentials::new` fails with the
instance-metadata source's own error, bitwise identical to what calling
that source directly returns - no distinct chain-level aggregate error
exists or is produced. -/
theorem new_exhausted_propagates_last_error :
    Credentials.new emptyWorld none none none none none =
      .error .notAwsInstance
    ∧ Credentials.from_instance_metadata emptyWorld =
      .error .notAwsInstance := by
  constructor <;> rfl

/-- C2 amended: when all four chained sources fail, `Credentials::new`
fails with exactly the last source's (`from_instance_metadata`'s) error,
propagated unchanged - it neither succeeds nor returns a partial
record. -/
theorem new_all_sources_exhausted (w : World) (sk st sst profile : Option String)
    (e : CredError)
    (h1 : ∃ e1, Credentials.from_sts_env w "aws-creds" = .error e1)
    (h2 : ∃ e2, Credentials.from_env w = .error e2)
    (h3 : ∃ e3, Credentials.from_profile w profile = .error e3)
    (h4 : Credentials.from_instance_metadata w = .error e) :
    Credentials.new w none sk st sst profile = .error e := by
  obtain ⟨e1, h1⟩ := h1
  obtain ⟨e2, h2⟩ := h2
  obtain ⟨e3, h3⟩ := h3
  unfold Credentials.new
  simp [h1, h2, h3, h4]

/-- C2 amended witness: in the empty world the chain fails with
`notAwsInstance`, the error of the final source. -/
theorem new_all_sources_exhausted_witness :
    Credentials.new emptyWorld none none none none none =
      .error .notAwsInstance :=
  new_all_sources_exhausted emptyWorld none none none none .notAwsInstance
    ⟨.envVarMissing "AWS_ROLE_ARN", rfl⟩
    ⟨.envWithDefaultMissing none "AWS_ACCESS_KEY_ID", rfl⟩
    ⟨.invalidHomeDir, rfl⟩ rfl

/-- C7: when `AWS_CONTAINER_CREDENTIALS_RELATIVE_URI` is unset and
neither platform probe matches, `from_instance_metadata` fails with the
not-on-platform error, and the result is unchanged under every
replacement of the HTTP collaborator - no network request is consulted. -/
theorem from_instance_metadata_not_on_platform (w : World)
    (henv : w.env "AWS_CONTAINER_CREDENTIALS_RELATIVE_URI" = none)
    (hu : onEc2ByHypervisorUuid w = false)
    (hv : onEc2ByBoardVendor w = false) :
    Credentials.from_instance_metadata w = .error .notAwsInstance
    ∧ ∀ g, Credentials.from_instance_metadata { w with httpGet := g } =
        .error .notAwsInstance := by
  have hw : ∀ g, Credentials.from_instance_metadata { w with httpGet := g } =
      .error CredError.notAwsInstance := by
    intro g
    unfold Credentials.from_instance_metadata fetchMetadataResponse
    have hu' : onEc2ByHypervisorUuid { w with httpGet := g } = false := hu
    have hv' : onEc2ByBoardVendor { w with httpGet := g } = false := hv
    simp [henv, hu', hv']
  exact ⟨by simpa using hw w.httpGet, hw⟩

/-- C7 witness: the empty world is off-platform with no container URI,
so instance metadata fails with `notAwsInstance` for every HTTP
collaborator. -/
theorem from_instance_metadata_not_on_platform_witness :
    Credentials.from_instance_metadata emptyWorld = .error .notAwsInstance :=
  (from_instance_metadata_not_on_platform emptyWorld rfl rfl rfl).1

lemma from_sts_ok_inv (w : World) (ra sn tok : String) (c : Credentials)
    (h : Credentials.from_sts w ra sn tok = .ok c) : recordInvariant c := by
  simp only [Credentials.from_sts] at h
  split at h
  · exact absurd h (by simp)
  split at h
  · exact absurd h (by simp)
  cases h
  simp [recordInvariant]

lemma from_sts_env_ok_inv (w : World) (sn : String) (c : Credentials)
    (h : Credentials.from_sts_env w sn = .ok c) : recordInvariant c := by
  simp only [Credentials.from_sts_env] at h
  split at h
  · exact absurd h (by simp)
  split at h
  · exact absurd h (by simp)
  split at h
  · exact absurd h (by simp)
  exact from_sts_ok_inv _ _ _ _ _ h

lemma from_env_specific_ok_inv (w : World) (av sv tv1 tv2 : Option String)
    (c : Credentials)
    (h : Credentials.from_env_specific w av sv tv1 tv2 = .ok c) :
    recordInvariant c := by
  simp only [Credentials.from_env_specific] at h
  split at h
  · exact absurd h (by simp)
  split at h
  · exact absurd h (by simp)
  cases h
  simp [recordInvariant]

lemma from_profile_ok_inv (w : World) (sec : Option String) (c : Credentials)
    (h : Credentials.from_profile w sec = .ok c) : recordInvariant c := by
  simp only [Credentials.from_profile] at h
  split at h
  · exact absurd h (by simp)
  split at h
  · exact absurd h (by simp)
  split at h
  · exact absurd h (by simp)
  split at h
  · exact absurd h (by simp)
  split at h
  · exact absurd h (by simp)
  cases h
  simp [recordInvariant]

lemma from_instance_metadata_ok_inv (w : World) (c : Credentials)
    (h : Credentials.from_instance_metadata w = .ok c) : recordInvariant c := by
  simp only [Credentials.from_instance_metadata] at h
  split at h
  · exact absurd h (by simp)
  cases h
  simp [recordInvariant]

/-- C3 counterexample: `Credentials::new` is a source constructor, and
called with an access key but no secret key it succeeds with a record
whose `access_key` is present while `secret_key` is `None`, violating
the record invariant of spec section 3. -/
theorem new_direct_breaks_invariant :
    Credentials.new emptyWorld (some "AKIA") none none none none =
      .ok { access_key := some "AKIA", secret_key := none, security_token := none
            session_token := none, expiration := none }
    ∧ ¬ recordInvariant
        { access_key := some "AKIA", secret_key := none, security_token := none
          session_token := none, expiration := none } :=
  ⟨rfl, by decide⟩

/-- C3 amended: every record produced by `anonymous`, `from_sts`,
`from_env_specific`, `from_profile`, `from_instance_metadata`, by the
chain branch of `new` (no access key supplied), or by the direct branch
of `new` when a secret key accompanies the access key, satisfies the
record invariant; the direct branch with a missing secret key is the one
exception. -/
theorem produced_records_satisfy_invariant (w : World) (c : Credentials)
    (h : Credentials.anonymous w = .ok c
      ∨ (∃ ra sn tok, Credentials.from_sts w ra sn tok = .ok c)
      ∨ (∃ av sv tv1 tv2, Credentials.from_env_specific w av sv tv1 tv2 = .ok c)
      ∨ (∃ sec, Credentials.from_profile w sec = .ok c)
      ∨ Credentials.from_instance_metadata w = .ok c
      ∨ (∃ ak sk st sst p, Credentials.new w (some ak) (some sk) st sst p = .ok c)
      ∨ (∃ sk st sst p, Credentials.new w none sk st sst p = .ok c)) :
    recordInvariant c := by
  rcases h with h | ⟨ra, sn, tok, h⟩ | ⟨av, sv, tv1, tv2, h⟩ | ⟨sec, h⟩ | h |
    ⟨ak, sk, st, sst, p, h⟩ | ⟨sk, st, sst, p, h⟩
  · cases h
    simp [recordInvariant]
  · exact from_sts_ok_inv _ _ _ _ _ h
  · exact from_env_specific_ok_inv _ _ _ _ _ _ h
  · exact from_profile_ok_inv _ _ _ h
  · exact from_instance_metadata_ok_inv _ _ h
  · cases h
    simp [recordInvariant]
  · simp only [Credentials.new] at h
    cases h1 : Credentials.from_sts_env w "aws-creds" with
    | ok c1 =>
      rw [h1] at h
      cases h
      exact from_sts_env_ok_inv _ _ _ h1
    | error e1 =>
      rw [h1] at h
      cases h2 : Credentials.from_env w with
      | ok c2 =>
        rw [h2] at h
        cases h
        exact from_env_specific_ok_inv _ _ _ _ _ _ h2
      | error e2 =>
        rw [h2] at h
        cases h3 : Credentials.from_profile w p with
        | ok c3 =>
          rw [h3] at h
          cases h
          exact from_profile_ok_inv _ _ _ h3
        | error e3 =>
          rw [h3] at h
          exact from_instance_metadata_ok_inv _ _ h

/-- C3 amended witness: the environment source's record for the world
holding only the two key variables satisfies the invariant. -/
theorem produced_records_satisfy_invariant_witness :
    recordInvariant { access_key := some "AKID", secret_key := some "SECRET"
                      security_token := none, session_token := none
                      expiration := none } :=
  produced_records_satisfy_invariant wEnvKeys _
    (Or.inr (Or.inr (Or.inl ⟨none, none, none, none, rfl⟩)))

/-- A profile file whose default section carries both token keys. -/
def iniBoth : Ini :=
  [("default",
    [("aws_access_key_id", "PAK"), ("aws_secret_access_key", "PSK"),
     ("aws_security_token", "SEC"), ("aws_session_token", "SES")])]

def wProfileBoth : World :=
  { emptyWorld with
      homeDir := some "/home/user"
      loadIni := fun _ => some iniBoth }

/-- The record the profile reader produces for `iniBoth`. -/
def credsBoth : Credentials :=
  { access_key := some "PAK", secret_key := some "PSK"
    security_token := some "SEC", session_token := some "SES"
    expiration := none }

/-- C4 counterexample: when the requested section carries both
`aws_security_token` and `aws_session_token`, `from_profile` populates
both token fields in a single record - one source does mix the two. -/
theorem from_profile_populates_both_tokens :
    Credentials.from_profile wProfileBoth none = .ok credsBoth
    ∧ credsBoth.security_token = some "SEC"
    ∧ credsBoth.session_token = some "SES" :=
  ⟨rfl, rfl, rfl⟩

/-- C4 amended: `from_sts` populates `session_token` and leaves
`security_token` `None`; `from_instance_metadata` populates
`security_token` and leaves `session_token` `None`; `from_profile` fills
each token field independently from its own profile key, so it populates
both exactly when both keys are present in the section. -/
theorem token_fields_by_source (w : World) (c : Credentials) :
    (∀ ra sn tok, Credentials.from_sts w ra sn tok = .ok c →
      c.security_token = none ∧ c.session_token ≠ none)
    ∧ (Credentials.from_instance_metadata w = .ok c →
      c.session_token = none ∧ c.security_token ≠ none)
    ∧ (∀ sec home conf data,
        w.homeDir = some home →
        w.loadIni (home ++ "/.aws/credentials") = some conf →
        conf.findSection ((sec : Option String).getD "default") = some data →
        Credentials.from_profile w sec = .ok c →
        c.security_token = propsGet data "aws_security_token" ∧
        c.session_token = propsGet data "aws_session_token") := by
  refine ⟨?_, ?_, ?_⟩
  · intro ra sn tok h
    simp only [Credentials.from_sts] at h
    split at h
    · exact absurd h (by simp)
    split at h
    · exact absurd h (by simp)
    cases h
    simp
  · intro h
    simp only [Credentials.from_instance_metadata] at h
    split at h
    · exact absurd h (by simp)
    cases h
    simp
  · intro sec home conf data hh hc hs h
    simp only [Credentials.from_profile, hh, hc, hs] at h
    split at h
    · exact absurd h (by simp)
    split at h
    · exact absurd h (by simp)
    cases h
    exact ⟨rfl, rfl⟩

/-- A world where the STS endpoint answers and the XML parses. -/
def wSts : World :=
  { emptyWorld with
      httpGet := fun _ => some "xml-body"
      parseStsXml := fun _ => some
        { session_token := "SESTOK", secret_access_key := "SK"
          expiration := 7, access_key_id := "AK" } }

/-- The record `from_sts` produces in `wSts`. -/
def credsSts : Credentials :=
  { access_key := some "AK", secret_key := some "SK", security_token := none
    session_token := some "SESTOK", expiration := some 7 }

/-- A world on ECS: container URI set, endpoint answering, JSON parsing. -/
def wImds : World :=
  { emptyWorld with
      env := fun n =>
        if n = "AWS_CONTAINER_CREDENTIALS_RELATIVE_URI" then some "/task" else none
      httpGet := fun _ => some "json-body"
      parseJson := fun _ => some
        { access_key_id := "MAK", secret_access_key := "MSK"
          token := "MTOK", expiration := 9 } }

/-- The record `from_instance_metadata` produces in `wImds`. -/
def credsImds : Credentials :=
  { access_key := some "MAK", secret_key := some "MSK"
    security_token := some "MTOK", session_token := none, expiration := some 9 }

/-- C4 amended witness: concrete STS, instance-metadata, and profile
resolutions exhibiting each conjunct. -/
theorem token_fields_by_source_witness :
    (credsSts.security_token = none ∧ credsSts.session_token ≠ none)
    ∧ (credsImds.session_token = none ∧ credsImds.security_token ≠ none)
    ∧ (credsBoth.security_token =
        propsGet (iniBoth.findSection "default").iget "aws_security_token" ∧
       credsBoth.session_token =
        propsGet (iniBoth.findSection "default").iget "aws_session_token") :=
  ⟨(token_fields_by_source wSts credsSts).1 "ra" "sn" "tok" rfl,
   (token_fields_by_source wImds credsImds).2.1 rfl,
   (token_fields_by_source wProfileBoth credsBoth).2.2 none "/home/user" iniBoth
     (iniBoth.findSection "default").iget rfl rfl rfl rfl⟩

/-- A profile file with a `[test]` section holding only the two required
keys. -/
def iniTest : Ini :=
  [("test", [("aws_access_key_id", "AKIA-T"), ("aws_secret_access_key", "wJal-T")])]

def wProfileTest : World :=
  { emptyWorld with
      homeDir := some "/home/user"
      loadIni := fun _ => some iniTest }

/-- C9: when the requested section of the loaded profile file has the two
required keys and neither token key, `from_profile` succeeds with exactly
those two values, both token fields `None`, and no expiration; and a
`None` section argument means section `"default"`. -/
theorem from_profile_two_keys (w : World) (sec home : String) (conf : Ini)
    (data : List (String × String)) (a s : String)
    (hh : w.homeDir = some home)
    (hc : w.loadIni (home ++ "/.aws/credentials") = some conf)
    (hs : conf.findSection sec = some data)
    (ha : propsGet data "aws_access_key_id" = some a)
    (hk : propsGet data "aws_secret_access_key" = some s)
    (ht1 : propsGet data "aws_security_token" = none)
    (ht2 : propsGet data "aws_session_token" = none) :
    Credentials.from_profile w (some sec) =
      .ok { access_key := some a, secret_key := some s, security_token := none
            session_token := none, expiration := none }
    ∧ Credentials.from_profile w none = Credentials.from_profile w (some "default") := by
  constructor
  · simp [Credentials.from_profile, hh, hc, hs, ha, hk, ht1, ht2]
  · rfl

/-- C9 witness: `Shared-Profile-File Reader("test")` on `iniTest`. -/
theorem from_profile_two_keys_witness :
    Credentials.from_profile wProfileTest (some "test") =
      .ok { access_key := some "AKIA-T", secret_key := some "wJal-T"
            security_token := none, session_token := none, expiration := none }
    ∧ Credentials.from_profile wProfileTest none =
        Credentials.from_profile wProfileTest (some "default") :=
  from_profile_two_keys wProfileTest "test" "/home/user" iniTest
    [("aws_access_key_id", "AKIA-T"), ("aws_secret_access_key", "wJal-T")]
    "AKIA-T" "wJal-T" rfl rfl rfl rfl rfl rfl rfl
